import Mathlib

/-!
Verification of the job-portal backend core logic: the application-status
state machine, the ownership-authorization checks, and the surrounding
use-case orchestration, shallowly embedded from the Go source.

Modelling conventions:
* MongoDB collections are modelled as Lean lists of records, in insertion
  order; FindOne is List.find? (first match), UpdateOne and DeleteOne act
  on the first matching element.
* ObjectIDs are modelled as their canonical hex strings; the driver call
  primitive.ObjectIDFromHex succeeds exactly on 24-character hex strings.
* Go functions returning (resp, err) pairs are modelled by GoResult; a
  nil-pointer dereference (a run-time panic) is the distinguished outcome
  GoResult.nilDeref.
* time.Time fields (CreatedAt, UpdatedAt, AppliedAt) carry no logic in any
  claim and are omitted from the records.
-/

/-- Application statuses are loosely-typed strings in the Go source
(domain.ApplicationStatus string). -/
abbrev ApplicationStatus := String

def StatusApplied : ApplicationStatus := "Applied"

def StatusReviewed : ApplicationStatus := "Reviewed"

def StatusInterview : ApplicationStatus := "Interview"

def StatusRejected : ApplicationStatus := "Rejected"

def StatusHired : ApplicationStatus := "Hired"

/-- Embeds usecase.isValidStatusTransition: the Go switch over
currentStatus with string-equality cases, falling through to false. -/
def isValidStatusTransition (currentStatus newStatus : ApplicationStatus) : Bool :=
  if currentStatus == StatusApplied then
    newStatus == StatusReviewed || newStatus == StatusInterview ||
      newStatus == StatusRejected || newStatus == StatusHired
  else if currentStatus == StatusReviewed then
    newStatus == StatusInterview || newStatus == StatusRejected || newStatus == StatusHired
  else if currentStatus == StatusInterview then
    newStatus == StatusHired || newStatus == StatusRejected
  else if currentStatus == StatusHired || currentStatus == StatusRejected then
    false
  else
    false

/-- The transition table as enumerated in the specification (section 4.1);
written from the spec, to be compared against isValidStatusTransition. -/
def specTransitionTable : List (ApplicationStatus × ApplicationStatus) :=
  [(StatusApplied, StatusReviewed), (StatusApplied, StatusInterview),
   (StatusApplied, StatusRejected), (StatusApplied, StatusHired),
   (StatusReviewed, StatusInterview), (StatusReviewed, StatusRejected),
   (StatusReviewed, StatusHired),
   (StatusInterview, StatusHired), (StatusInterview, StatusRejected)]

/-- Character class accepted by hex decoding of an ObjectID. -/
def isHexChar (c : Char) : Bool :=
  c.isDigit || (('a' ≤ c) && (c ≤ 'f')) || (('A' ≤ c) && (c ≤ 'F'))

/-- primitive.ObjectIDFromHex succeeds exactly on 24-character hex strings. -/
def validObjectID (s : String) : Bool :=
  s.length == 24 && s.toList.all isHexChar

/-- In ApplyForJob the hex-decode error is discarded; on failure Go yields
the zero ObjectID. -/
def objectIDFromHexOrZero (s : String) : String :=
  if validObjectID s then s else "000000000000000000000000"

/-- Embeds domain.Job. The stored document fields Title, Description and
Location are modelled as Option String because the repository UpdateJob
writes possibly-nil pointers into them, storing BSON null (none). Field
defaults are the Go zero values. -/
structure Job where
  ID : String := ""
  Title : Option String := none
  Description : Option String := none
  Location : Option String := none
  IsPublished : Bool := false
  CreatedBy : String := ""
deriving DecidableEq

/-- Embeds domain.Application (AppliedAt omitted, carries no logic). -/
structure Application where
  ID : String := ""
  ApplicantID : String := ""
  JobID : String := ""
  ResumeLink : String := ""
  CoverLetter : String := ""
  Status : ApplicationStatus := ""
deriving DecidableEq

/-- Embeds domain.User (timestamps omitted). -/
structure User where
  ID : String := ""
  Name : String := ""
  Email : String := ""
  Password : String := ""
  Role : String := ""
deriving DecidableEq

/-- Embeds domain.ApplyRequest (the resume file is turned into a link by
the controller before the use case runs). -/
structure ApplyRequest where
  JobID : String := ""
  CoverLetter : String := ""
deriving DecidableEq

/-- Embeds domain.UpdateJobRequest: all four fields are pointers in Go,
hence Options here. -/
structure UpdateJobRequest where
  Title : Option String := none
  Description : Option String := none
  Location : Option String := none
  IsPublished : Option Bool := none
deriving DecidableEq

/-- Embeds domain.UpdateApplicationStatusRequest. -/
structure UpdateApplicationStatusRequest where
  Status : ApplicationStatus := ""
deriving DecidableEq

/-- Embeds domain.ApplicationResponse (Data holds an Application or nil). -/
structure ApplicationResponse where
  Success : Bool := false
  Message : String := ""
  Data : Option Application := none
  Errors : List String := []
deriving DecidableEq

/-- Embeds domain.JobResponse. -/
structure JobResponse where
  Success : Bool := false
  Message : String := ""
  Data : Option Job := none
  Errors : List String := []
deriving DecidableEq

/-- Embeds domain.AuthResponse. -/
structure AuthResponse where
  Success : Bool := false
  Message : String := ""
  Token : String := ""
  User : Option User := none
deriving DecidableEq

/-- Embeds domain.LoginRequest. -/
structure LoginRequest where
  Email : String := ""
  Password : String := ""
deriving DecidableEq

/-- Outcome of a Go call returning a response pointer and an error; a
nil-pointer dereference panic is the distinguished outcome nilDeref. -/
inductive GoResult (α : Type) where
  | ret (resp : Option α) (err : Option String)
  | nilDeref
deriving DecidableEq

/-- The two persistent collections the application use case touches. -/
structure DB where
  jobs : List Job := []
  apps : List Application := []
deriving DecidableEq

namespace applicationRepository

/-- Embeds applicationRepository.CreateApplication: assigns a fresh
ObjectID, forces Status to StatusApplied, and inserts. The fresh id
produced by primitive.NewObjectID is passed in as a parameter. -/
def CreateApplication (apps : List Application) (application : Application)
    (freshID : String) : Application × List Application :=
  let app := { application with ID := freshID, Status := StatusApplied }
  (app, apps ++ [app])

/-- Embeds applicationRepository.GetApplicationByID. The filter also asks
for deleted_at nil, which matches every document since Application records
never carry that field. -/
def GetApplicationByID (apps : List Application) (id : String) :
    Except String Application :=
  if validObjectID id then
    match apps.find? (fun a => a.ID == id) with
    | some application => .ok application
    | none => .error "application not found"
  else
    .error "invalid application ID"

/-- Embeds applicationRepository.GetApplicationByApplicantAndJob: FindOne
on the (applicant_id, job_id) pair, mongo.ErrNoDocuments mapped to
(nil, nil). -/
def GetApplicationByApplicantAndJob (apps : List Application)
    (applicantID jobID : String) : Except String (Option Application) :=
  if validObjectID jobID then
    .ok (apps.find? (fun a => a.ApplicantID == applicantID && a.JobID == jobID))
  else
    .error "invalid job ID"

/-- UpdateOne semantics: set the status of the first document whose _id
matches. -/
def updateStatusFirst : List Application → String → ApplicationStatus → List Application
  | [], _, _ => []
  | a :: rest, id, status =>
    if a.ID == id then { a with Status := status } :: rest
    else a :: updateStatusFirst rest id status

/-- Embeds applicationRepository.UpdateApplicationStatus. -/
def UpdateApplicationStatus (apps : List Application) (id : String)
    (status : ApplicationStatus) : Except String (List Application) :=
  if validObjectID id then .ok (updateStatusFirst apps id status)
  else .error "invalid application ID"

end applicationRepository

namespace jobRepository

/-- Embeds jobRepository.GetJobByID: an invalid hex id is returned as an
error, a missing document as (nil, nil) - that is, ok none. -/
def GetJobByID (jobs : List Job) (id : String) : Except String (Option Job) :=
  if validObjectID id then .ok (jobs.find? (fun j => j.ID == id))
  else .error "the provided hex string is not a valid ObjectID"

/-- Embeds jobRepository.JobBelongsToUser: CountDocuments on
(_id, created_by) compared against zero. -/
def JobBelongsToUser (jobs : List Job) (jobID userID : String) :
    Except String Bool :=
  if validObjectID jobID then
    .ok (decide (0 < jobs.countP (fun j => j.ID == jobID && j.CreatedBy == userID)))
  else
    .error "the provided hex string is not a valid ObjectID"

/-- UpdateOne semantics for UpdateJob: overwrite title, description and
location of the first matching document with the request pointer values
(none stores BSON null); is_published is not part of the update document. -/
def updateFieldsFirst : List Job → String → UpdateJobRequest → List Job
  | [], _, _ => []
  | j :: rest, id, update =>
    if j.ID == id then
      { j with Title := update.Title, Description := update.Description,
               Location := update.Location } :: rest
    else j :: updateFieldsFirst rest id update

/-- Embeds jobRepository.UpdateJob. -/
def UpdateJob (jobs : List Job) (id : String) (update : UpdateJobRequest) :
    Except String (List Job) :=
  if validObjectID id then .ok (updateFieldsFirst jobs id update)
  else .error "the provided hex string is not a valid ObjectID"

/-- DeleteOne semantics: remove the first document whose _id matches. -/
def deleteFirst : List Job → String → List Job
  | [], _ => []
  | j :: rest, id => if j.ID == id then rest else j :: deleteFirst rest id

/-- Embeds jobRepository.DeleteJob. -/
def DeleteJob (jobs : List Job) (id : String) : Except String (List Job) :=
  if validObjectID id then .ok (deleteFirst jobs id)
  else .error "the provided hex string is not a valid ObjectID"

end jobRepository

namespace userRepository

/-- Embeds userRepository.FindByEmail; mongo.ErrNoDocuments becomes
domain.ErrUserNotFound. -/
def FindByEmail (users : List User) (email : String) : Except String User :=
  match users.find? (fun u => u.Email == email) with
  | some user => .ok user
  | none => .error "user not found"

end userRepository

namespace applicationUseCase

/-- Embeds usecase ApplyForJob: job-existence check (whose error branch
compares against the string "job not found"), duplicate check, then
creation. -/
def ApplyForJob (db : DB) (req : ApplyRequest) (applicantID resumeLink : String)
    (freshID : String) : GoResult ApplicationResponse × DB :=
  match jobRepository.GetJobByID db.jobs req.JobID with
  | .error e =>
    if e == "job not found" then
      (.ret (some { Success := false, Message := "Job not found" }) none, db)
    else
      (.ret none (some ("error checking job: " ++ e)), db)
  | .ok _job =>
    match applicationRepository.GetApplicationByApplicantAndJob db.apps applicantID req.JobID with
    | .error e => (.ret none (some ("error checking existing application: " ++ e)), db)
    | .ok (some _existingApp) =>
      (.ret (some { Success := false, Message := "You have already applied for this job" }) none, db)
    | .ok none =>
      let jobObjID := objectIDFromHexOrZero req.JobID
      let application : Application :=
        { ApplicantID := applicantID, JobID := jobObjID, ResumeLink := resumeLink,
          CoverLetter := req.CoverLetter, Status := StatusApplied }
      let created := applicationRepository.CreateApplication db.apps application freshID
      (.ret (some { Success := true, Message := "Successfully applied for the job",
                    Data := some created.1 }) none,
        { db with apps := created.2 })

/-- The tail of usecase UpdateApplicationStatus after the ownership check
has passed: transition validation, the status write, and the refetch. -/
def updateStatusAuthorized (db : DB) (applicationID : String)
    (application : Application) (req : UpdateApplicationStatusRequest) :
    GoResult ApplicationResponse × DB :=
  if !isValidStatusTransition application.Status req.Status then
    (.ret (some { Success := false, Message := "Invalid status transition",
                  Errors := ["Cannot change status from " ++ application.Status ++
                             " to " ++ req.Status] }) none, db)
  else
    match applicationRepository.UpdateApplicationStatus db.apps applicationID req.Status with
    | .error e => (.ret none (some ("error updating application status: " ++ e)), db)
    | .ok apps1 =>
      match applicationRepository.GetApplicationByID apps1 applicationID with
      | .error e =>
        (.ret none (some ("error getting updated application: " ++ e)), { db with apps := apps1 })
      | .ok updatedApp =>
        (.ret (some { Success := true, Message := "Application status updated successfully",
                      Data := some updatedApp }) none,
          { db with apps := apps1 })

/-- Embeds usecase UpdateApplicationStatus: request validation, the
application lookup, the job lookup (dereferencing the job pointer without
a nil check), the ownership check, then updateStatusAuthorized. -/
def UpdateApplicationStatus (db : DB) (applicationID companyID : String)
    (req : UpdateApplicationStatusRequest) : GoResult ApplicationResponse × DB :=
  if req.Status == "" then
    (.ret (some { Success := false, Message := "Validation failed",
                  Errors := ["Status is required"] }) none, db)
  else
    match applicationRepository.GetApplicationByID db.apps applicationID with
    | .error e =>
      if e == "invalid application ID" || e == "mongo: no documents in result" then
        (.ret (some { Success := false, Message := "Application not found" }) none, db)
      else
        (.ret none (some ("error getting application: " ++ e)), db)
    | .ok application =>
      match jobRepository.GetJobByID db.jobs application.JobID with
      | .error e =>
        if e == "job not found" then
          (.ret (some { Success := false, Message := "Job not found" }) none, db)
        else
          (.ret none (some ("error checking job: " ++ e)), db)
      | .ok none => (.nilDeref, db)
      | .ok (some job) =>
        if job.CreatedBy != companyID then
          (.ret (some { Success := false, Message := "Forbidden",
                        Errors := ["You don\x27t have permission to update this application"] })
            none, db)
        else
          updateStatusAuthorized db applicationID application req

end applicationUseCase

namespace jobUseCase

/-- Embeds jobUseCase.UpdateJob: ownership via JobBelongsToUser, then the
repository update and a refetch of the updated job. -/
def UpdateJob (jobs : List Job) (jobID : String) (req : UpdateJobRequest)
    (userID : String) : GoResult JobResponse × List Job :=
  match jobRepository.JobBelongsToUser jobs jobID userID with
  | .error e =>
    (.ret (some { Success := false, Message := "Error checking job ownership",
                  Errors := [e] }) (some e), jobs)
  | .ok false =>
    (.ret (some { Success := false,
                  Message := "Unauthorized: You don\x27t have permission to update this job" })
      (some "unauthorized"), jobs)
  | .ok true =>
    match jobRepository.UpdateJob jobs jobID req with
    | .error e =>
      (.ret (some { Success := false, Message := "Failed to update job",
                    Errors := [e] }) (some e), jobs)
    | .ok jobs1 =>
      match jobRepository.GetJobByID jobs1 jobID with
      | .error e =>
        (.ret (some { Success := false, Message := "Failed to fetch updated job",
                      Errors := [e] }) (some e), jobs1)
      | .ok updatedJob =>
        (.ret (some { Success := true, Message := "Job updated successfully",
                      Data := updatedJob }) none, jobs1)

/-- Embeds jobUseCase.DeleteJob: fetches the job (dereferencing the
pointer without a nil check), checks ownership, then deletes. -/
def DeleteJob (jobs : List Job) (jobID userID : String) :
    GoResult JobResponse × List Job :=
  match jobRepository.GetJobByID jobs jobID with
  | .error e =>
    (.ret (some { Success := false, Message := "Job not found", Errors := [e] })
      (some e), jobs)
  | .ok none => (.nilDeref, jobs)
  | .ok (some job) =>
    if job.CreatedBy != userID then
      (.ret (some { Success := false, Message := "Unauthorized",
                    Errors := ["You don\x27t have permission to delete this job"] })
        (some "unauthorized access"), jobs)
    else
      match jobRepository.DeleteJob jobs jobID with
      | .error e =>
        (.ret (some { Success := false, Message := "Failed to delete job",
                      Errors := [e] }) (some e), jobs)
      | .ok jobs1 =>
        (.ret (some { Success := true, Message := "Job deleted successfully" }) none, jobs1)

end jobUseCase

namespace userUsecase

/-- Embeds (*User).Sanitize. -/
def Sanitize (u : User) : User := { u with Password := "" }

/-- Embeds userUsecase.Login. The bcrypt comparison utils.CheckPassword
and the token issuance utils.GenerateJWT are collaborator primitives not
present under the usecase; they are passed in as function parameters
(checkPassword returns the comparison error or nil, generateJWT receives
the user id and role with the secret already applied). -/
def Login (users : List User) (req : LoginRequest)
    (checkPassword : String → String → Option String)
    (generateJWT : String → String → Except String String) :
    Except String AuthResponse :=
  match userRepository.FindByEmail users req.Email with
  | .error e =>
    if e == "user not found" then
      .ok { Success := false, Message := "Invalid email or password" }
    else
      .error e
  | .ok user =>
    match checkPassword req.Password user.Password with
    | some _ => .ok { Success := false, Message := "Invalid email or password" }
    | none =>
      match generateJWT user.ID user.Role with
      | .error e => .error e
      | .ok token =>
        .ok { Success := true, Message := "Login successful", Token := token,
              User := some (Sanitize user) }

end userUsecase

/-- A call counts as successful when it returns a non-nil response with
Success true and a nil error. -/
def succeeded : GoResult ApplicationResponse → Bool
  | .ret (some r) none => r.Success
  | _ => false

/-- One orchestration step of the status-update loop: the database after a
single UpdateApplicationStatus call (applicationID, companyID, request). -/
def stepUpdate (db : DB) (call : String × String × UpdateApplicationStatusRequest) : DB :=
  (applicationUseCase.UpdateApplicationStatus db call.1 call.2.1 call.2.2).2


/-- C1: isValidStatusTransition returns true exactly on the pairs of the
spec table; in particular it is false on every self-transition, and false
for every requested status when the current status is outside the five
enumerated statuses (fail closed). -/
theorem isValidStatusTransition_matches_spec_table :
    (∀ c r : ApplicationStatus,
        isValidStatusTransition c r = true ↔ (c, r) ∈ specTransitionTable)
    ∧ (∀ s : ApplicationStatus, isValidStatusTransition s s = false)
    ∧ (∀ c r : ApplicationStatus,
        c ≠ StatusApplied → c ≠ StatusReviewed → c ≠ StatusInterview →
        c ≠ StatusHired → c ≠ StatusRejected →
        isValidStatusTransition c r = false) := by
  refine ⟨?_, ?_, ?_⟩
  · intro c r
    simp only [isValidStatusTransition, specTransitionTable]
    split_ifs with h1 h2 h3 h4
    · rw [beq_iff_eq] at h1
      subst h1
      simp [StatusApplied, StatusReviewed, StatusInterview, StatusRejected, StatusHired,
        Prod.mk.injEq]
      tauto
    · rw [beq_iff_eq] at h2
      subst h2
      simp [StatusApplied, StatusReviewed, StatusInterview, StatusRejected, StatusHired,
        Prod.mk.injEq]
      tauto
    · rw [beq_iff_eq] at h3
      subst h3
      simp [StatusApplied, StatusReviewed, StatusInterview, StatusRejected, StatusHired,
        Prod.mk.injEq]
    · simp only [Bool.or_eq_true, beq_iff_eq] at h4
      rcases h4 with h4 | h4 <;> subst h4 <;>
        simp [StatusApplied, StatusReviewed, StatusInterview, StatusRejected, StatusHired,
          Prod.mk.injEq]
    · simp only [Bool.or_eq_true, beq_iff_eq] at h1 h2 h3 h4
      push_neg at h4
      simp only [List.mem_cons, List.not_mem_nil, or_false, Prod.mk.injEq]
      constructor
      · intro h
        exact absurd h (by simp)
      · intro h
        rcases h with ⟨hc, _⟩ | ⟨hc, _⟩ | ⟨hc, _⟩ | ⟨hc, _⟩ | ⟨hc, _⟩ | ⟨hc, _⟩ |
          ⟨hc, _⟩ | ⟨hc, _⟩ | ⟨hc, _⟩ <;> simp_all
  · intro s
    simp only [isValidStatusTransition]
    split_ifs with h1 h2 h3 h4
    · rw [beq_iff_eq] at h1; subst h1; decide
    · rw [beq_iff_eq] at h2; subst h2; decide
    · rw [beq_iff_eq] at h3; subst h3; decide
    · rfl
    · rfl
  · intro c r h1 h2 h3 h4 h5
    simp only [isValidStatusTransition]
    split_ifs with g1 g2 g3 g4
    · exact absurd (by simpa using g1) h1
    · exact absurd (by simpa using g2) h2
    · exact absurd (by simpa using g3) h3
    · rfl
    · rfl

/-- Witness for C1 at concrete statuses, including an out-of-enumeration
current status. -/
theorem isValidStatusTransition_matches_spec_table_witness :
    isValidStatusTransition StatusApplied StatusHired = true
    ∧ isValidStatusTransition StatusHired StatusHired = false
    ∧ isValidStatusTransition "Pending" StatusReviewed = false :=
  ⟨(isValidStatusTransition_matches_spec_table.1 StatusApplied StatusHired).2 (by decide),
   isValidStatusTransition_matches_spec_table.2.1 StatusHired,
   isValidStatusTransition_matches_spec_table.2.2 "Pending" StatusReviewed
     (by decide) (by decide) (by decide) (by decide) (by decide)⟩

/-- C3 (code bug): applying for a job that does not exist is not rejected.
jobRepository.GetJobByID reports a missing job as (nil, nil), while
ApplyForJob only recognises an error whose text is "job not found" (an
error the repository never produces), so with an empty job store the call
still succeeds and inserts an application record referencing the
nonexistent job. -/
theorem applyForJob_missing_job_still_creates_application :
    applicationUseCase.ApplyForJob { jobs := [], apps := [] }
        { JobID := "aaaaaaaaaaaaaaaaaaaaaaaa" } "applicant1" "resume.pdf"
        "bbbbbbbbbbbbbbbbbbbbbbbb"
      = (.ret (some { Success := true, Message := "Successfully applied for the job",
                      Data := some { ID := "bbbbbbbbbbbbbbbbbbbbbbbb",
                                     ApplicantID := "applicant1",
                                     JobID := "aaaaaaaaaaaaaaaaaaaaaaaa",
                                     ResumeLink := "resume.pdf",
                                     CoverLetter := "",
                                     Status := "Applied" } }) none,
         { jobs := [],
           apps := [{ ID := "bbbbbbbbbbbbbbbbbbbbbbbb",
                      ApplicantID := "applicant1",
                      JobID := "aaaaaaaaaaaaaaaaaaaaaaaa",
                      ResumeLink := "resume.pdf",
                      CoverLetter := "",
                      Status := "Applied" }] }) := by
  rfl

/-- C4 (code bug): UpdateApplicationStatus on an application whose
referenced job record no longer exists dereferences the nil job pointer
(job.CreatedBy) instead of returning a not-found rejection, because
jobRepository.GetJobByID reports the missing job as (nil, nil). -/
theorem updateApplicationStatus_missing_job_dereferences_nil :
    (applicationUseCase.UpdateApplicationStatus
        { jobs := [],
          apps := [{ ID := "bbbbbbbbbbbbbbbbbbbbbbbb", ApplicantID := "u1",
                     JobID := "aaaaaaaaaaaaaaaaaaaaaaaa", ResumeLink := "r",
                     CoverLetter := "", Status := "Applied" }] }
        "bbbbbbbbbbbbbbbbbbbbbbbb" "company1" { Status := "Reviewed" }).1
      = .nilDeref := by
  rfl

/-- C9 (code bug): jobRepository.UpdateJob writes the three pointer fields
unconditionally - an omitted Description and Location are stored as null,
not retained - and is_published is absent from the update document, so a
supplied IsPublished never changes the stored flag. -/
theorem updateJob_clobbers_omitted_fields_and_ignores_isPublished :
    jobUseCase.UpdateJob
        [{ ID := "aaaaaaaaaaaaaaaaaaaaaaaa", Title := some "t",
           Description := some "olddesc", Location := some "loc",
           IsPublished := false, CreatedBy := "comp" }]
        "aaaaaaaaaaaaaaaaaaaaaaaa"
        { Title := some "newtitle", Description := none, Location := none,
          IsPublished := some true }
        "comp"
      = (.ret (some { Success := true, Message := "Job updated successfully",
                      Data := some { ID := "aaaaaaaaaaaaaaaaaaaaaaaa",
                                     Title := some "newtitle",
                                     Description := none, Location := none,
                                     IsPublished := false,
                                     CreatedBy := "comp" } }) none,
         [{ ID := "aaaaaaaaaaaaaaaaaaaaaaaa", Title := some "newtitle",
            Description := none, Location := none, IsPublished := false,
            CreatedBy := "comp" }]) := by
  rfl

/-- C6: when an application for the (applicant, job) pair already exists,
ApplyForJob rejects with the duplicate-application message and leaves the
database unchanged, whatever the status of the existing record. -/
theorem applyForJob_duplicate_rejected (db : DB) (req : ApplyRequest)
    (applicantID resumeLink freshID : String) (existing : Application)
    (hvalid : validObjectID req.JobID = true)
    (hmem : existing ∈ db.apps)
    (happ : existing.ApplicantID = applicantID)
    (hjob : existing.JobID = req.JobID) :
    applicationUseCase.ApplyForJob db req applicantID resumeLink freshID
      = (.ret (some { Success := false,
                      Message := "You have already applied for this job" }) none, db) := by
  unfold applicationUseCase.ApplyForJob jobRepository.GetJobByID
    applicationRepository.GetApplicationByApplicantAndJob
  simp only [hvalid, if_true]
  have hsome : (db.apps.find? (fun a => a.ApplicantID == applicantID && a.JobID == req.JobID)).isSome := by
    rw [List.find?_isSome]
    exact ⟨existing, hmem, by simp [happ, hjob]⟩
  obtain ⟨x, hx⟩ := Option.isSome_iff_exists.mp hsome
  rw [hx]

/-- C7: an application created through ApplyForJob is stored with status
Applied. The first conjunct states it for the repository insert alone:
whatever status the supplied record carries, CreateApplication stores
Applied; the second states that every successful ApplyForJob call appends
exactly one application, whose stored status is Applied. -/
theorem applyForJob_creates_with_status_applied :
    (∀ (apps : List Application) (application : Application) (freshID : String),
        (applicationRepository.CreateApplication apps application freshID).1.Status
            = StatusApplied
        ∧ (applicationRepository.CreateApplication apps application freshID).2
            = apps ++ [(applicationRepository.CreateApplication apps application freshID).1])
    ∧ (∀ (db : DB) (req : ApplyRequest) (applicantID resumeLink freshID : String)
          (r : ApplicationResponse) (db2 : DB),
        applicationUseCase.ApplyForJob db req applicantID resumeLink freshID
            = (.ret (some r) none, db2) →
        r.Success = true →
        ∃ app, r.Data = some app ∧ app.Status = StatusApplied
          ∧ db2.apps = db.apps ++ [app]) := by
  constructor
  · intro apps application freshID
    exact ⟨rfl, rfl⟩
  · intro db req applicantID resumeLink freshID r db2 h hsucc
    unfold applicationUseCase.ApplyForJob at h
    rcases hj : jobRepository.GetJobByID db.jobs req.JobID with e | ojob
    · rw [hj] at h
      by_cases he : (e == "job not found") = true
      · simp only [he, if_true, Prod.mk.injEq, GoResult.ret.injEq, Option.some.injEq] at h
        obtain ⟨⟨hr, -⟩, -⟩ := h
        rw [← hr] at hsucc
        simp at hsucc
      · simp only [he, if_false, Prod.mk.injEq, GoResult.ret.injEq] at h
        simp at h
    · rw [hj] at h
      rcases ha : applicationRepository.GetApplicationByApplicantAndJob db.apps
          applicantID req.JobID with e | oapp
      · rw [ha] at h
        simp only [Prod.mk.injEq, GoResult.ret.injEq] at h
        simp at h
      · rw [ha] at h
        cases oapp with
        | some existing =>
          simp only [Prod.mk.injEq, GoResult.ret.injEq, Option.some.injEq] at h
          obtain ⟨⟨hr, -⟩, -⟩ := h
          rw [← hr] at hsucc
          simp at hsucc
        | none =>
          simp only [applicationRepository.CreateApplication, Prod.mk.injEq,
            GoResult.ret.injEq, Option.some.injEq] at h
          obtain ⟨⟨hr, -⟩, hdb⟩ := h
          refine ⟨_, by rw [← hr], rfl, ?_⟩
          rw [← hdb]

/-- Witness for C6: a second application by the same applicant to the same
job is rejected even though the existing record is already Hired. -/
theorem applyForJob_duplicate_rejected_witness :
    applicationUseCase.ApplyForJob
        { jobs := [{ ID := "aaaaaaaaaaaaaaaaaaaaaaaa", CreatedBy := "comp" }],
          apps := [{ ID := "bbbbbbbbbbbbbbbbbbbbbbbb", ApplicantID := "u1",
                     JobID := "aaaaaaaaaaaaaaaaaaaaaaaa", ResumeLink := "r",
                     CoverLetter := "", Status := "Hired" }] }
        { JobID := "aaaaaaaaaaaaaaaaaaaaaaaa" } "u1" "resume2.pdf"
        "cccccccccccccccccccccccc"
      = (.ret (some { Success := false,
                      Message := "You have already applied for this job" }) none,
         { jobs := [{ ID := "aaaaaaaaaaaaaaaaaaaaaaaa", CreatedBy := "comp" }],
           apps := [{ ID := "bbbbbbbbbbbbbbbbbbbbbbbb", ApplicantID := "u1",
                      JobID := "aaaaaaaaaaaaaaaaaaaaaaaa", ResumeLink := "r",
                      CoverLetter := "", Status := "Hired" }] }) :=
  applyForJob_duplicate_rejected _ _ _ _ _
    { ID := "bbbbbbbbbbbbbbbbbbbbbbbb", ApplicantID := "u1",
      JobID := "aaaaaaaaaaaaaaaaaaaaaaaa", ResumeLink := "r",
      CoverLetter := "", Status := "Hired" }
    (by decide) (by decide) rfl rfl

/-- Witness for C7 at a concrete successful application. -/
theorem applyForJob_creates_with_status_applied_witness :
    ∃ app, (some { ID := "bbbbbbbbbbbbbbbbbbbbbbbb", ApplicantID := "u1",
                   JobID := "aaaaaaaaaaaaaaaaaaaaaaaa", ResumeLink := "resume.pdf",
                   CoverLetter := "", Status := "Applied" } : Option Application)
        = some app
      ∧ app.Status = StatusApplied
      ∧ ({ jobs := [{ ID := "aaaaaaaaaaaaaaaaaaaaaaaa", CreatedBy := "comp" }],
           apps := [{ ID := "bbbbbbbbbbbbbbbbbbbbbbbb", ApplicantID := "u1",
                      JobID := "aaaaaaaaaaaaaaaaaaaaaaaa", ResumeLink := "resume.pdf",
                      CoverLetter := "", Status := "Applied" }] } : DB).apps
        = ({ jobs := [{ ID := "aaaaaaaaaaaaaaaaaaaaaaaa", CreatedBy := "comp" }],
             apps := [] } : DB).apps
          ++ [app] :=
  applyForJob_creates_with_status_applied.2
    { jobs := [{ ID := "aaaaaaaaaaaaaaaaaaaaaaaa", CreatedBy := "comp" }], apps := [] }
    { JobID := "aaaaaaaaaaaaaaaaaaaaaaaa" } "u1" "resume.pdf"
    "bbbbbbbbbbbbbbbbbbbbbbbb" _ _ rfl rfl

/-- Helper: with a non-empty requested status, a found application and a
found job, a non-owner company receives the Forbidden rejection and the
database is untouched. -/
lemma updateStatus_forbidden_of_non_owner (db : DB)
    (applicationID companyID : String) (req : UpdateApplicationStatusRequest)
    (application : Application) (job : Job)
    (hreq : (req.Status == "") = false)
    (happ : applicationRepository.GetApplicationByID db.apps applicationID
              = .ok application)
    (hjob : jobRepository.GetJobByID db.jobs application.JobID = .ok (some job))
    (hown : (job.CreatedBy != companyID) = true) :
    applicationUseCase.UpdateApplicationStatus db applicationID companyID req
      = (.ret (some { Success := false, Message := "Forbidden",
                      Errors := ["You don\x27t have permission to update this application"] })
          none, db) := by
  unfold applicationUseCase.UpdateApplicationStatus
  rw [hreq]
  rw [happ]
  simp only [Bool.false_eq_true, if_false]
  rw [hjob]
  simp [hown]

/-- Helper: with a non-empty requested status, a found application and a
found job, the owning company passes the ownership gate and the call
continues with the transition validation and write. -/
lemma updateStatus_proceeds_for_owner (db : DB)
    (applicationID companyID : String) (req : UpdateApplicationStatusRequest)
    (application : Application) (job : Job)
    (hreq : (req.Status == "") = false)
    (happ : applicationRepository.GetApplicationByID db.apps applicationID
              = .ok application)
    (hjob : jobRepository.GetJobByID db.jobs application.JobID = .ok (some job))
    (hown : (job.CreatedBy != companyID) = false) :
    applicationUseCase.UpdateApplicationStatus db applicationID companyID req
      = applicationUseCase.updateStatusAuthorized db applicationID application req := by
  unfold applicationUseCase.UpdateApplicationStatus
  rw [hreq]
  rw [happ]
  simp only [Bool.false_eq_true, if_false]
  rw [hjob]
  simp [hown]

/-- C8: a status-update request from a company that does not own the job
is rejected with the Forbidden response before the transition is even
examined, and the stored data is unchanged, for every requested status. -/
theorem updateApplicationStatus_rejects_non_owner (db : DB)
    (applicationID companyID : String) (req : UpdateApplicationStatusRequest)
    (application : Application) (job : Job)
    (hreq : req.Status ≠ "")
    (happ : applicationRepository.GetApplicationByID db.apps applicationID
              = .ok application)
    (hjob : jobRepository.GetJobByID db.jobs application.JobID = .ok (some job))
    (hown : job.CreatedBy ≠ companyID) :
    applicationUseCase.UpdateApplicationStatus db applicationID companyID req
      = (.ret (some { Success := false, Message := "Forbidden",
                      Errors := ["You don\x27t have permission to update this application"] })
          none, db) :=
  updateStatus_forbidden_of_non_owner db applicationID companyID req application job
    (by simpa using hreq) happ hjob (by simpa using hown)

/-- Witness for C8: the non-owner company comp2 requests a transition that
would otherwise be legal (Applied to Reviewed) and is rejected. -/
theorem updateApplicationStatus_rejects_non_owner_witness :
    applicationUseCase.UpdateApplicationStatus
        { jobs := [{ ID := "aaaaaaaaaaaaaaaaaaaaaaaa", CreatedBy := "comp" }],
          apps := [{ ID := "bbbbbbbbbbbbbbbbbbbbbbbb", ApplicantID := "u1",
                     JobID := "aaaaaaaaaaaaaaaaaaaaaaaa", ResumeLink := "r",
                     CoverLetter := "", Status := "Applied" }] }
        "bbbbbbbbbbbbbbbbbbbbbbbb" "comp2" { Status := "Reviewed" }
      = (.ret (some { Success := false, Message := "Forbidden",
                      Errors := ["You don\x27t have permission to update this application"] })
          none,
         { jobs := [{ ID := "aaaaaaaaaaaaaaaaaaaaaaaa", CreatedBy := "comp" }],
           apps := [{ ID := "bbbbbbbbbbbbbbbbbbbbbbbb", ApplicantID := "u1",
                      JobID := "aaaaaaaaaaaaaaaaaaaaaaaa", ResumeLink := "r",
                      CoverLetter := "", Status := "Applied" }] }) :=
  updateApplicationStatus_rejects_non_owner _ _ _ _
    { ID := "bbbbbbbbbbbbbbbbbbbbbbbb", ApplicantID := "u1",
      JobID := "aaaaaaaaaaaaaaaaaaaaaaaa", ResumeLink := "r",
      CoverLetter := "", Status := "Applied" }
    { ID := "aaaaaaaaaaaaaaaaaaaaaaaa", CreatedBy := "comp" }
    (by decide) rfl rfl (by decide)

/-- Helper: on a collection with unique job ids containing j, the
ownership count query answers exactly whether the queried user is
j.CreatedBy. -/
lemma jobBelongsToUser_eq (jobs : List Job) (j : Job) (a : String)
    (hmem : j ∈ jobs) (hnd : (jobs.map Job.ID).Nodup)
    (hvalid : validObjectID j.ID = true) :
    jobRepository.JobBelongsToUser jobs j.ID a = .ok (j.CreatedBy == a) := by
  unfold jobRepository.JobBelongsToUser
  rw [hvalid]
  simp only [if_true]
  congr 1
  by_cases hca : (j.CreatedBy == a) = true
  · have hpos : 0 < jobs.countP (fun x => x.ID == j.ID && x.CreatedBy == a) := by
      rw [List.countP_pos_iff]
      exact ⟨j, hmem, by simp [hca]⟩
    simp [hpos, hca]
  · have hzero : jobs.countP (fun x => x.ID == j.ID && x.CreatedBy == a) = 0 := by
      rw [List.countP_eq_zero]
      intro x hx hpx
      simp only [Bool.and_eq_true, beq_iff_eq] at hpx
      obtain ⟨hid, hcb⟩ := hpx
      have hxj : x = j := List.inj_on_of_nodup_map hnd hx hmem hid
      rw [hxj] at hcb
      exact hca (by simp [hcb])
    have hfalse : (j.CreatedBy == a) = false := Bool.not_eq_true _ |>.mp hca
    simp [hzero, hfalse]

/-- C2: each mutation of a job (update, delete) and each status change of
an application under a job is allowed exactly when the acting identity
equals the job record field CreatedBy; any other identity receives the
unauthorized rejection and the data is unchanged. -/
theorem ownership_authorization_iff_creator :
    (∀ (jobs : List Job) (j : Job) (req : UpdateJobRequest) (a : String),
      j ∈ jobs → (jobs.map Job.ID).Nodup → validObjectID j.ID = true →
      ((a = j.CreatedBy →
          jobUseCase.UpdateJob jobs j.ID req a
            = (.ret (some { Success := true, Message := "Job updated successfully",
                            Data := (jobRepository.updateFieldsFirst jobs j.ID req).find?
                                      (fun x => x.ID == j.ID) }) none,
               jobRepository.updateFieldsFirst jobs j.ID req))
        ∧ (a ≠ j.CreatedBy →
          jobUseCase.UpdateJob jobs j.ID req a
            = (.ret (some { Success := false,
                            Message := "Unauthorized: You don\x27t have permission to update this job" })
                (some "unauthorized"), jobs))))
    ∧ (∀ (jobs : List Job) (jobID : String) (j : Job) (a : String),
      jobRepository.GetJobByID jobs jobID = .ok (some j) →
      ((a = j.CreatedBy →
          jobUseCase.DeleteJob jobs jobID a
            = (.ret (some { Success := true, Message := "Job deleted successfully" }) none,
               jobRepository.deleteFirst jobs jobID))
        ∧ (a ≠ j.CreatedBy →
          jobUseCase.DeleteJob jobs jobID a
            = (.ret (some { Success := false, Message := "Unauthorized",
                            Errors := ["You don\x27t have permission to delete this job"] })
                (some "unauthorized access"), jobs))))
    ∧ (∀ (db : DB) (applicationID a : String) (req : UpdateApplicationStatusRequest)
          (application : Application) (job : Job),
      req.Status ≠ "" →
      applicationRepository.GetApplicationByID db.apps applicationID = .ok application →
      jobRepository.GetJobByID db.jobs application.JobID = .ok (some job) →
      ((a = job.CreatedBy →
          applicationUseCase.UpdateApplicationStatus db applicationID a req
            = applicationUseCase.updateStatusAuthorized db applicationID application req)
        ∧ (a ≠ job.CreatedBy →
          applicationUseCase.UpdateApplicationStatus db applicationID a req
            = (.ret (some { Success := false, Message := "Forbidden",
                            Errors := ["You don\x27t have permission to update this application"] })
                none, db)))) := by
  refine ⟨?_, ?_, ?_⟩
  · intro jobs j req a hmem hnd hvalid
    have hb := jobBelongsToUser_eq jobs j a hmem hnd hvalid
    constructor
    · intro hae
      have hca : (j.CreatedBy == a) = true := by simp [hae]
      unfold jobUseCase.UpdateJob
      rw [hb, hca]
      simp [jobRepository.UpdateJob, jobRepository.GetJobByID, hvalid]
    · intro hne
      have hca : (j.CreatedBy == a) = false := by
        simp only [beq_eq_false_iff_ne]
        exact fun h => hne h.symm
      unfold jobUseCase.UpdateJob
      rw [hb, hca]
  · intro jobs jobID j a hjob
    have hvalid : validObjectID jobID = true := by
      by_cases hv : validObjectID jobID = true
      · exact hv
      · unfold jobRepository.GetJobByID at hjob
        simp [hv] at hjob
    constructor
    · intro hae
      have hca : (j.CreatedBy != a) = false := by simp [hae]
      unfold jobUseCase.DeleteJob
      rw [hjob]
      simp only [hca, Bool.false_eq_true, if_false]
      simp [jobRepository.DeleteJob, hvalid]
    · intro hne
      have hca : (j.CreatedBy != a) = true := by
        simp only [bne_iff_ne]
        exact fun h => hne h.symm
      unfold jobUseCase.DeleteJob
      rw [hjob]
      simp [hca]
  · intro db applicationID a req application job hreq happ hjob
    constructor
    · intro hae
      exact updateStatus_proceeds_for_owner db applicationID a req application job
        (by simpa using hreq) happ hjob (by simp [hae])
    · intro hne
      exact updateStatus_forbidden_of_non_owner db applicationID a req application job
        (by simpa using hreq) happ hjob
        (by simp only [bne_iff_ne]; exact fun h => hne h.symm)

/-- Witness for C2: the owner comp may update its job, while comp2 is
rejected on delete and on an application status change. -/
theorem ownership_authorization_iff_creator_witness :
    (jobUseCase.UpdateJob [{ ID := "aaaaaaaaaaaaaaaaaaaaaaaa", CreatedBy := "comp" }]
        "aaaaaaaaaaaaaaaaaaaaaaaa" { Title := some "t2" } "comp"
      = (.ret (some { Success := true, Message := "Job updated successfully",
                      Data := (jobRepository.updateFieldsFirst
                                 [{ ID := "aaaaaaaaaaaaaaaaaaaaaaaa", CreatedBy := "comp" }]
                                 "aaaaaaaaaaaaaaaaaaaaaaaa" { Title := some "t2" }).find?
                                (fun x => x.ID == "aaaaaaaaaaaaaaaaaaaaaaaa") }) none,
         jobRepository.updateFieldsFirst
           [{ ID := "aaaaaaaaaaaaaaaaaaaaaaaa", CreatedBy := "comp" }]
           "aaaaaaaaaaaaaaaaaaaaaaaa" { Title := some "t2" }))
    ∧ (jobUseCase.DeleteJob [{ ID := "aaaaaaaaaaaaaaaaaaaaaaaa", CreatedBy := "comp" }]
        "aaaaaaaaaaaaaaaaaaaaaaaa" "comp2"
      = (.ret (some { Success := false, Message := "Unauthorized",
                      Errors := ["You don\x27t have permission to delete this job"] })
          (some "unauthorized access"),
         [{ ID := "aaaaaaaaaaaaaaaaaaaaaaaa", CreatedBy := "comp" }]))
    ∧ (applicationUseCase.UpdateApplicationStatus
        { jobs := [{ ID := "aaaaaaaaaaaaaaaaaaaaaaaa", CreatedBy := "comp" }],
          apps := [{ ID := "bbbbbbbbbbbbbbbbbbbbbbbb", ApplicantID := "u1",
                     JobID := "aaaaaaaaaaaaaaaaaaaaaaaa", ResumeLink := "r",
                     CoverLetter := "", Status := "Applied" }] }
        "bbbbbbbbbbbbbbbbbbbbbbbb" "comp2" { Status := "Reviewed" }
      = (.ret (some { Success := false, Message := "Forbidden",
                      Errors := ["You don\x27t have permission to update this application"] })
          none,
         { jobs := [{ ID := "aaaaaaaaaaaaaaaaaaaaaaaa", CreatedBy := "comp" }],
           apps := [{ ID := "bbbbbbbbbbbbbbbbbbbbbbbb", ApplicantID := "u1",
                      JobID := "aaaaaaaaaaaaaaaaaaaaaaaa", ResumeLink := "r",
                      CoverLetter := "", Status := "Applied" }] })) :=
  ⟨(ownership_authorization_iff_creator.1
      [{ ID := "aaaaaaaaaaaaaaaaaaaaaaaa", CreatedBy := "comp" }]
      { ID := "aaaaaaaaaaaaaaaaaaaaaaaa", CreatedBy := "comp" }
      { Title := some "t2" } "comp" (by decide) (by decide) (by decide)).1 rfl,
   (ownership_authorization_iff_creator.2.1
      [{ ID := "aaaaaaaaaaaaaaaaaaaaaaaa", CreatedBy := "comp" }]
      "aaaaaaaaaaaaaaaaaaaaaaaa"
      { ID := "aaaaaaaaaaaaaaaaaaaaaaaa", CreatedBy := "comp" } "comp2" rfl).2 (by decide),
   (ownership_authorization_iff_creator.2.2
      { jobs := [{ ID := "aaaaaaaaaaaaaaaaaaaaaaaa", CreatedBy := "comp" }],
        apps := [{ ID := "bbbbbbbbbbbbbbbbbbbbbbbb", ApplicantID := "u1",
                   JobID := "aaaaaaaaaaaaaaaaaaaaaaaa", ResumeLink := "r",
                   CoverLetter := "", Status := "Applied" }] }
      "bbbbbbbbbbbbbbbbbbbbbbbb" "comp2" { Status := "Reviewed" }
      { ID := "bbbbbbbbbbbbbbbbbbbbbbbb", ApplicantID := "u1",
        JobID := "aaaaaaaaaaaaaaaaaaaaaaaa", ResumeLink := "r",
        CoverLetter := "", Status := "Applied" }
      { ID := "aaaaaaaaaaaaaaaaaaaaaaaa", CreatedBy := "comp" }
      (by decide) rfl rfl).2 (by decide)⟩

/-- C10: a login attempt with an unregistered email and a login attempt
with a registered email but wrong password produce the identical failure
response - same success flag and message, no token, no user data - so the
response does not reveal whether the email is registered. The bcrypt
comparison is the collaborator parameter checkPassword; a wrong password
means it returns an error. -/
theorem login_failures_indistinguishable (users : List User)
    (req1 req2 : LoginRequest)
    (checkPassword : String → String → Option String)
    (generateJWT : String → String → Except String String)
    (u : User) (e : String)
    (h1 : userRepository.FindByEmail users req1.Email = .error "user not found")
    (h2 : userRepository.FindByEmail users req2.Email = .ok u)
    (h3 : checkPassword req2.Password u.Password = some e) :
    userUsecase.Login users req1 checkPassword generateJWT
      = userUsecase.Login users req2 checkPassword generateJWT
    ∧ userUsecase.Login users req1 checkPassword generateJWT
      = .ok { Success := false, Message := "Invalid email or password",
              Token := "", User := none } := by
  have hl1 : userUsecase.Login users req1 checkPassword generateJWT
      = .ok { Success := false, Message := "Invalid email or password",
              Token := "", User := none } := by
    unfold userUsecase.Login
    rw [h1]
    rfl
  have hl2 : userUsecase.Login users req2 checkPassword generateJWT
      = .ok { Success := false, Message := "Invalid email or password",
              Token := "", User := none } := by
    unfold userUsecase.Login
    rw [h2]
    simp only []
    rw [h3]
  exact ⟨hl1.trans hl2.symm, hl1⟩

/-- Witness for C10: a store with one user; an unknown email and a wrong
password for the known email yield the same response. -/
theorem login_failures_indistinguishable_witness :
    userUsecase.Login
        [{ ID := "cccccccccccccccccccccccc", Name := "Ann", Email := "ann@x.io",
           Password := "hash-pw1", Role := "company" }]
        { Email := "bob@x.io", Password := "pw1" }
        (fun password hashed => if hashed == "hash-" ++ password then none
          else some "crypto/bcrypt: hashedPassword is not the hash of the given password")
        (fun id role => .ok ("token-" ++ id ++ "-" ++ role))
      = userUsecase.Login
          [{ ID := "cccccccccccccccccccccccc", Name := "Ann", Email := "ann@x.io",
             Password := "hash-pw1", Role := "company" }]
          { Email := "ann@x.io", Password := "wrong" }
          (fun password hashed => if hashed == "hash-" ++ password then none
            else some "crypto/bcrypt: hashedPassword is not the hash of the given password")
          (fun id role => .ok ("token-" ++ id ++ "-" ++ role))
    ∧ userUsecase.Login
        [{ ID := "cccccccccccccccccccccccc", Name := "Ann", Email := "ann@x.io",
           Password := "hash-pw1", Role := "company" }]
        { Email := "bob@x.io", Password := "pw1" }
        (fun password hashed => if hashed == "hash-" ++ password then none
          else some "crypto/bcrypt: hashedPassword is not the hash of the given password")
        (fun id role => .ok ("token-" ++ id ++ "-" ++ role))
      = .ok { Success := false, Message := "Invalid email or password",
              Token := "", User := none } :=
  login_failures_indistinguishable
    [{ ID := "cccccccccccccccccccccccc", Name := "Ann", Email := "ann@x.io",
       Password := "hash-pw1", Role := "company" }]
    { Email := "bob@x.io", Password := "pw1" }
    { Email := "ann@x.io", Password := "wrong" }
    (fun password hashed => if hashed == "hash-" ++ password then none
      else some "crypto/bcrypt: hashedPassword is not the hash of the given password")
    (fun id role => .ok ("token-" ++ id ++ "-" ++ role))
    { ID := "cccccccccccccccccccccccc", Name := "Ann", Email := "ann@x.io",
      Password := "hash-pw1", Role := "company" }
    "crypto/bcrypt: hashedPassword is not the hash of the given password"
    rfl rfl rfl

/-- Helper: from a terminal status every transition is invalid. -/
lemma terminal_no_transition (s r : ApplicationStatus)
    (h : s = StatusHired ∨ s = StatusRejected) :
    isValidStatusTransition s r = false := by
  rcases h with h | h <;> subst h <;>
    simp [isValidStatusTransition, StatusApplied, StatusReviewed, StatusInterview,
      StatusRejected, StatusHired]

/-- Helper: updating the status of document t leaves lookups of any other
id unchanged. -/
lemma find?_updateStatusFirst_ne (apps : List Application) (t : String)
    (st : ApplicationStatus) (aid : String) (h : t ≠ aid) :
    (applicationRepository.updateStatusFirst apps t st).find? (fun x => x.ID == aid)
      = apps.find? (fun x => x.ID == aid) := by
  induction apps with
  | nil => rfl
  | cons x rest ih =>
    unfold applicationRepository.updateStatusFirst
    by_cases hx : (x.ID == t) = true
    · rw [if_pos hx]
      have hxid : x.ID = t := by simpa using hx
      have hxa : (x.ID == aid) = false := by
        simp only [beq_eq_false_iff_ne, hxid]
        exact h
      simp only [List.find?, hxa]
    · rw [if_neg hx]
      by_cases hxa : (x.ID == aid) = true
      · simp only [List.find?, hxa]
      · simp only [Bool.not_eq_true] at hxa
        simp only [List.find?, hxa]
        exact ih

/-- Helper: the authorized tail of a status update never changes the
stored record of an application in a terminal status. -/
lemma updateStatusAuthorized_preserves_terminal_record (db : DB) (a : Application)
    (t : String) (application : Application) (req : UpdateApplicationStatusRequest)
    (hterm : a.Status = StatusHired ∨ a.Status = StatusRejected)
    (hfind : db.apps.find? (fun x => x.ID == a.ID) = some a)
    (hga : applicationRepository.GetApplicationByID db.apps t = .ok application) :
    ((applicationUseCase.updateStatusAuthorized db t application req).2).apps.find?
        (fun x => x.ID == a.ID) = some a := by
  unfold applicationUseCase.updateStatusAuthorized
  split
  · simpa using hfind
  · unfold applicationRepository.UpdateApplicationStatus
    by_cases hvt : validObjectID t = true
    · simp only [hvt, if_true]
      rename_i hv
      simp only [Bool.not_eq_true', Bool.not_eq_false] at hv
      by_cases ht : t = a.ID
      · subst ht
        unfold applicationRepository.GetApplicationByID at hga
        rw [if_pos hvt, hfind] at hga
        have happ_a : application = a := by simpa using hga.symm
        rw [happ_a] at hv
        rw [terminal_no_transition a.Status req.Status hterm] at hv
        simp at hv
      · have hframe := find?_updateStatusFirst_ne db.apps t req.Status a.ID ht
        split <;> simpa [hframe] using hfind
    · simp only [hvt, Bool.false_eq_true, if_false]
      simpa using hfind

/-- Helper: a single UpdateApplicationStatus call, whatever its target and
arguments, leaves the stored record of a terminal application unchanged. -/
lemma updateStatus_preserves_terminal_record (db : DB) (a : Application)
    (t c : String) (req : UpdateApplicationStatusRequest)
    (hterm : a.Status = StatusHired ∨ a.Status = StatusRejected)
    (hfind : db.apps.find? (fun x => x.ID == a.ID) = some a) :
    ((applicationUseCase.UpdateApplicationStatus db t c req).2).apps.find?
        (fun x => x.ID == a.ID) = some a := by
  unfold applicationUseCase.UpdateApplicationStatus
  split
  · simpa using hfind
  · split
    · split <;> simpa using hfind
    · rename_i application hga2
      split
      · split <;> simpa using hfind
      · simpa using hfind
      · rename_i job hgj2
        split
        · simpa using hfind
        · rename_i hcb
          exact updateStatusAuthorized_preserves_terminal_record db a t application req
            hterm hfind hga2

/-- Helper: a status-update call aimed at a terminal application never
returns a success response. -/
lemma updateStatus_terminal_target_not_success (db : DB) (a : Application)
    (c : String) (req : UpdateApplicationStatusRequest)
    (hterm : a.Status = StatusHired ∨ a.Status = StatusRejected)
    (hfind : db.apps.find? (fun x => x.ID == a.ID) = some a) :
    succeeded (applicationUseCase.UpdateApplicationStatus db a.ID c req).1 = false := by
  unfold applicationUseCase.UpdateApplicationStatus
  split
  · rfl
  · split
    · split <;> rfl
    · rename_i application hga2
      split
      · split <;> rfl
      · rfl
      · rename_i job hgj2
        split
        · rfl
        · rename_i hcb
          have hvt : validObjectID a.ID = true := by
            by_contra hv
            unfold applicationRepository.GetApplicationByID at hga2
            simp [hv] at hga2
          have happ_a : application = a := by
            unfold applicationRepository.GetApplicationByID at hga2
            rw [if_pos hvt, hfind] at hga2
            simpa using hga2.symm
          subst happ_a
          unfold applicationUseCase.updateStatusAuthorized
          simp [terminal_no_transition application.Status req.Status hterm, succeeded]

/-- C5: once a stored application is in a terminal status (Hired or
Rejected), no sequence of UpdateApplicationStatus calls ever changes its
stored record, and any further call aimed at it - whatever company and
requested status, including Hired to Rejected and back - never succeeds. -/
theorem terminal_application_status_is_permanent (db : DB) (a : Application)
    (hterm : a.Status = StatusHired ∨ a.Status = StatusRejected)
    (hfind : db.apps.find? (fun x => x.ID == a.ID) = some a)
    (calls : List (String × String × UpdateApplicationStatusRequest)) :
    (calls.foldl stepUpdate db).apps.find? (fun x => x.ID == a.ID) = some a
    ∧ ∀ (c : String) (req : UpdateApplicationStatusRequest),
        succeeded (applicationUseCase.UpdateApplicationStatus
            (calls.foldl stepUpdate db) a.ID c req).1 = false := by
  have hinv : ∀ db2 : DB, db2.apps.find? (fun x => x.ID == a.ID) = some a →
      (calls.foldl stepUpdate db2).apps.find? (fun x => x.ID == a.ID) = some a := by
    induction calls with
    | nil => exact fun db2 h => h
    | cons x xs ih =>
      intro db2 h
      simp only [List.foldl_cons]
      exact ih (stepUpdate db2 x)
        (updateStatus_preserves_terminal_record db2 a x.1 x.2.1 x.2.2 hterm h)
  refine ⟨hinv db hfind, fun c req => ?_⟩
  exact updateStatus_terminal_target_not_success _ a c req hterm (hinv db hfind)

/-- Witness for C5: a Rejected application survives a two-call sequence
(re-open to Applied by the owner, then to Hired) unchanged, and a further
attempt does not succeed. -/
theorem terminal_application_status_is_permanent_witness :
    (([("bbbbbbbbbbbbbbbbbbbbbbbb", "comp", { Status := "Applied" }),
       ("bbbbbbbbbbbbbbbbbbbbbbbb", "comp", { Status := "Hired" })]
        : List (String × String × UpdateApplicationStatusRequest)).foldl stepUpdate
      { jobs := [{ ID := "aaaaaaaaaaaaaaaaaaaaaaaa", CreatedBy := "comp" }],
        apps := [{ ID := "bbbbbbbbbbbbbbbbbbbbbbbb", ApplicantID := "u1",
                   JobID := "aaaaaaaaaaaaaaaaaaaaaaaa", ResumeLink := "r",
                   CoverLetter := "", Status := "Rejected" }] }).apps.find?
        (fun x => x.ID == ({ ID := "bbbbbbbbbbbbbbbbbbbbbbbb", ApplicantID := "u1",
                             JobID := "aaaaaaaaaaaaaaaaaaaaaaaa", ResumeLink := "r",
                             CoverLetter := "",
                             Status := "Rejected" } : Application).ID)
      = some { ID := "bbbbbbbbbbbbbbbbbbbbbbbb", ApplicantID := "u1",
               JobID := "aaaaaaaaaaaaaaaaaaaaaaaa", ResumeLink := "r",
               CoverLetter := "", Status := "Rejected" }
    ∧ succeeded (applicationUseCase.UpdateApplicationStatus
        (([("bbbbbbbbbbbbbbbbbbbbbbbb", "comp", { Status := "Applied" }),
           ("bbbbbbbbbbbbbbbbbbbbbbbb", "comp", { Status := "Hired" })]
            : List (String × String × UpdateApplicationStatusRequest)).foldl stepUpdate
          { jobs := [{ ID := "aaaaaaaaaaaaaaaaaaaaaaaa", CreatedBy := "comp" }],
            apps := [{ ID := "bbbbbbbbbbbbbbbbbbbbbbbb", ApplicantID := "u1",
                       JobID := "aaaaaaaaaaaaaaaaaaaaaaaa", ResumeLink := "r",
                       CoverLetter := "", Status := "Rejected" }] })
        ({ ID := "bbbbbbbbbbbbbbbbbbbbbbbb", ApplicantID := "u1",
           JobID := "aaaaaaaaaaaaaaaaaaaaaaaa", ResumeLink := "r",
           CoverLetter := "", Status := "Rejected" } : Application).ID
        "comp" { Status := "Hired" }).1 = false :=
  ⟨(terminal_application_status_is_permanent
      { jobs := [{ ID := "aaaaaaaaaaaaaaaaaaaaaaaa", CreatedBy := "comp" }],
        apps := [{ ID := "bbbbbbbbbbbbbbbbbbbbbbbb", ApplicantID := "u1",
                   JobID := "aaaaaaaaaaaaaaaaaaaaaaaa", ResumeLink := "r",
                   CoverLetter := "", Status := "Rejected" }] }
      { ID := "bbbbbbbbbbbbbbbbbbbbbbbb", ApplicantID := "u1",
        JobID := "aaaaaaaaaaaaaaaaaaaaaaaa", ResumeLink := "r",
        CoverLetter := "", Status := "Rejected" }
      (Or.inr rfl) rfl
      [("bbbbbbbbbbbbbbbbbbbbbbbb", "comp", { Status := "Applied" }),
       ("bbbbbbbbbbbbbbbbbbbbbbbb", "comp", { Status := "Hired" })]).1,
   (terminal_application_status_is_permanent
      { jobs := [{ ID := "aaaaaaaaaaaaaaaaaaaaaaaa", CreatedBy := "comp" }],
        apps := [{ ID := "bbbbbbbbbbbbbbbbbbbbbbbb", ApplicantID := "u1",
                   JobID := "aaaaaaaaaaaaaaaaaaaaaaaa", ResumeLink := "r",
                   CoverLetter := "", Status := "Rejected" }] }
      { ID := "bbbbbbbbbbbbbbbbbbbbbbbb", ApplicantID := "u1",
        JobID := "aaaaaaaaaaaaaaaaaaaaaaaa", ResumeLink := "r",
        CoverLetter := "", Status := "Rejected" }
      (Or.inr rfl) rfl
      [("bbbbbbbbbbbbbbbbbbbbbbbb", "comp", { Status := "Applied" }),
       ("bbbbbbbbbbbbbbbbbbbbbbbb", "comp", { Status := "Hired" })]).2
     "comp" { Status := "Hired" }⟩
